import Mathlib

/-!
Verification of the Travel-Itinerary-Planner backend request pipeline.

The development shallowly embeds the Python sources:
  * `backend/travel_app/utils.py` (input sanitizers, ownership check),
  * `backend/travel_app/middleware.py` (Firebase authentication middleware),
  * `backend/travel_app/views.py` (`ItineraryView.post`, `HistoryView.get`),
  * `backend/travel_app/models.py` (the `Itinerary` record).

Python strings are Lean `String`s, optional values are `Option`, raising
`ValueError` is `Except String`, and the external services (Firebase token
verification, the Groq completion endpoint, the database) are explicit
oracle arguments and explicit state.
-/

deriving instance DecidableEq for Except

namespace TravelApp

/-- The ASCII fragment of Python's whitespace class: the characters matched
by the regex class `\s` and stripped by `str.strip()`. -/
def isPySpace (c : Char) : Bool :=
  c = ' ' || c = '\t' || c = '\n' || c = '\r' || c = '\x0b' || c = '\x0c'

/-- `str.strip()` on a character list: drop whitespace from both ends. -/
def pyStrip (cs : List Char) : List Char :=
  ((cs.dropWhile isPySpace).reverse.dropWhile isPySpace).reverse

/-- `str.strip()` on a `String`. -/
def pyStripStr (s : String) : String :=
  String.mk (pyStrip s.toList)

/-- `str.lower()` (modelled on the ASCII range, which `Char.toLower` maps). -/
def pyLower (s : String) : String :=
  String.mk (s.toList.map Char.toLower)

/-- `str.startswith(pre)`. -/
def strStartsWith (s pre : String) : Bool :=
  pre.toList.isPrefixOf s.toList

/-- Evaluate a nonempty all-digit character list as a decimal numeral. -/
def digitsVal (cs : List Char) : Option Nat :=
  if cs = [] then none
  else if cs.all Char.isDigit then
    some (cs.foldl (fun a c => a * 10 + (c.toNat - 48)) 0)
  else none

/-- Python's `int()` builtin applied to a string: surrounding whitespace is
ignored, then an optional sign followed by decimal digits; `none` models the
`ValueError` raised on anything else. -/
def parsePyInt (s : String) : Option Int :=
  match pyStrip s.toList with
  | '+' :: rest => (digitsVal rest).map Int.ofNat
  | '-' :: rest => (digitsVal rest).map (fun n => -(n : Int))
  | rest => (digitsVal rest).map Int.ofNat

/-- A raw JSON/request value as the sanitizers see it: a string, an integer,
or Python `None` (standing for any non-string, non-int value). -/
inductive PyVal where
  | str (s : String)
  | int (n : Int)
  | none
deriving DecidableEq

/-- The apostrophe character, spelled by code point. -/
def apoChar : Char := Char.ofNat 39

/-- The character class of the regex `^[a-zA-Z0-9\s\-'.,()]+$` in
`sanitize_destination`. -/
def destAllowedChar (c : Char) : Bool :=
  c.isAlpha || c.isDigit || isPySpace c || c = '-' || c = apoChar ||
    c = '.' || c = ',' || c = '(' || c = ')'

/-- Worker for `collapseWs`: the flag records whether we are inside a
whitespace run whose single replacement space was already emitted. -/
def collapseWsAux : Bool → List Char → List Char
  | _, [] => []
  | inRun, c :: cs =>
    if isPySpace c then
      if inRun then collapseWsAux true cs else ' ' :: collapseWsAux true cs
    else c :: collapseWsAux false cs

/-- `re.sub` with pattern `\s+` and replacement a single space: collapse
every run of whitespace characters into one space. -/
def collapseWs (cs : List Char) : List Char :=
  collapseWsAux false cs

/-- `utils.sanitize_destination`: rejects a falsy or non-string value, strips
whitespace, checks the trimmed length is within [2, 100], checks every
character against the allowed class, and finally collapses whitespace runs
to single spaces. -/
def sanitize_destination (v : PyVal) : Except String String :=
  match v with
  | .str s =>
    if s = "" then .error "Destination must be a non-empty string"
    else
      let d := pyStrip s.toList
      if d.length > 100 then .error "Destination name is too long (max 100 characters)"
      else if d.length < 2 then .error "Destination name is too short (min 2 characters)"
      else if d.all destAllowedChar then .ok (String.mk (collapseWs d))
      else .error "Destination contains invalid characters. Only letters, numbers, spaces, hyphens, apostrophes, and basic punctuation are allowed."
  | _ => .error "Destination must be a non-empty string"

/-- `utils.sanitize_days`: a string is converted with `int(days.strip())`
(conversion failure is re-raised as a `ValueError`), a non-int non-str value
is rejected, and the resulting integer must lie in [1, 30]. -/
def sanitize_days (v : PyVal) : Except String Int :=
  match (match v with
         | .int n => some n
         | .str s => parsePyInt s
         | .none => Option.none) with
  | Option.none => .error "Days must be a valid number"
  | some days =>
    if days < 1 then .error "Number of days must be at least 1"
    else if days > 30 then .error "Number of days cannot exceed 30 (for reasonable itinerary planning)"
    else .ok days

/-- `utils.create_safe_prompt`: the fixed f-string template with the two
sanitized values substituted into its slots. -/
def create_safe_prompt (destination : String) (days : Int) : String :=
  "\nCreate a detailed travel itinerary for the following specifications:\n\nDestination: "
    ++ destination ++ "\nDuration: " ++ toString days
    ++ " days\n\nPlease provide:\n1. Daily activities and attractions\n2. Recommended restaurants for each day\n3. Transportation suggestions\n4. Estimated costs\n5. Important travel tips\n\nFormat the response as a structured itinerary with clear day-by-day breakdown.\n"

/-- `utils.validate_email_ownership`: `False` when either argument is falsy
(absent or the empty string), otherwise equality of the stripped, lowercased
forms. -/
def validate_email_ownership (request_email authenticated_email : Option String) : Bool :=
  match request_email, authenticated_email with
  | some r, some a =>
    if r = "" || a = "" then false
    else pyLower (pyStripStr r) = pyLower (pyStripStr a)
  | _, _ => false

/-- Raw body of a create request: each field is `Option.none` when the key is
absent from the request data.  The declared `user_email` is modelled as an
optional string (absence covers both a missing key and a JSON null, which the
view treats alike). -/
structure ReqData where
  destination : Option PyVal
  days : Option PyVal
  user_email : Option String
deriving DecidableEq

/-- Result of `utils.sanitize_user_input`: the sanitized fields, each present
exactly when the corresponding key was present. -/
structure SanData where
  destination : Option String
  days : Option Int
  user_email : Option String
deriving DecidableEq

/-- `utils.sanitize_user_input`: sanitize `destination` and `days` when
present (propagating the first `ValueError`), and copy `user_email`
verbatim. -/
def sanitize_user_input (d : ReqData) : Except String SanData :=
  match (match d.destination with
         | Option.none => Except.ok Option.none
         | some v => (sanitize_destination v).map some) with
  | .error e => .error e
  | .ok dest =>
    match (match d.days with
           | Option.none => Except.ok Option.none
           | some v => (sanitize_days v).map some) with
    | .error e => .error e
    | .ok dy => .ok ⟨dest, dy, d.user_email⟩

/-- The `request.firebase_user` dictionary attached by the middleware. -/
structure FirebaseUser where
  uid : String
  email : Option String
  email_verified : Bool
  name : Option String
  picture : Option String
deriving DecidableEq

/-- The fixed placeholder identity attached in the unconfigured
("development") mode of `middleware.py`. -/
def mockUser : FirebaseUser :=
  { uid := "dev-user"
    email := some "dev@example.com"
    email_verified := true
    name := some "Development User"
    picture := Option.none }

/-- Outcome of `firebase_admin.auth.verify_id_token` on a token string:
success with the decoded claims, `InvalidIdTokenError`, `ExpiredIdTokenError`
or any other exception. -/
inductive VerifyOutcome where
  | ok (uid : String) (email : Option String) (email_verified : Option Bool)
      (name : Option String) (picture : Option String)
  | invalidToken
  | expiredToken
  | otherError
deriving DecidableEq

/-- `FirebaseAuthenticationMiddleware.EXEMPT_PATHS`. -/
def EXEMPT_PATHS : List String := ["/admin/", "/api/health/"]

/-- `auth_header.split(' ', 1)`: split at the first space, or `none` for the
`ValueError` raised when there is no space to split at. -/
def splitOnSpaceOnce : List Char → Option (List Char × List Char)
  | [] => Option.none
  | c :: cs =>
    if c = ' ' then some ([], cs)
    else match splitOnSpaceOnce cs with
      | Option.none => Option.none
      | some (a, b) => some (c :: a, b)

/-- What the middleware does with one request: either the request proceeds
to the view (with `request.firebase_user` attached iff the middleware set
it), or it is rejected with a status and machine-readable code. -/
inductive MwOutcome where
  | allow (user : Option FirebaseUser)
  | reject (status : Nat) (code : String)
deriving DecidableEq

/-- Middleware result together with whether `auth.verify_id_token` (the
external identity service) was invoked. -/
structure MwOut where
  outcome : MwOutcome
  verifyCalled : Bool
deriving DecidableEq

/-- `FirebaseAuthenticationMiddleware.process_request`.

`firebaseInitialized` is the module-level `FIREBASE_INITIALIZED` flag fixed
at process start; `verify` is the identity-service oracle.  Exempt and
non-API paths skip authentication; an uninitialized trust root attaches the
placeholder identity; otherwise the `Authorization` header is parsed as
`Bearer <token>` (a falsy header is rejected as missing) and the token is
verified.  In `firebase_admin`, `ExpiredIdTokenError` is a subclass of
`InvalidIdTokenError`, so the first `except` clause also catches expired
tokens and the dedicated expired branch is unreachable. -/
def process_request (firebaseInitialized : Bool) (path : String)
    (authHeader : Option String) (verify : String → VerifyOutcome) : MwOut :=
  if EXEMPT_PATHS.any (fun p => strStartsWith path p) then ⟨.allow Option.none, false⟩
  else if ¬ strStartsWith path "/api/" then ⟨.allow Option.none, false⟩
  else if ¬ firebaseInitialized then ⟨.allow (some mockUser), false⟩
  else
    match authHeader with
    | Option.none => ⟨.reject 401 "MISSING_AUTH_HEADER", false⟩
    | some h =>
      if h = "" then ⟨.reject 401 "MISSING_AUTH_HEADER", false⟩
      else
        match splitOnSpaceOnce h.toList with
        | Option.none => ⟨.reject 401 "INVALID_AUTH_FORMAT", false⟩
        | some (ty, tok) =>
          if pyLower (String.mk ty) ≠ "bearer" then ⟨.reject 401 "INVALID_AUTH_FORMAT", false⟩
          else
            match verify (String.mk tok) with
            | .ok uid em ev nm pic =>
              ⟨.allow (some ⟨uid, em, ev.getD false, nm, pic⟩), true⟩
            | .invalidToken => ⟨.reject 401 "INVALID_TOKEN", true⟩
            | .expiredToken => ⟨.reject 401 "INVALID_TOKEN", true⟩
            | .otherError => ⟨.reject 401 "AUTH_FAILED", true⟩

/-- A persisted `Itinerary` row (`models.py`).  `created_at` is the
`auto_now_add` timestamp, modelled by a logical clock; `id` is the primary
key. -/
structure Itinerary where
  id : Nat
  destination : String
  days : Int
  result : String
  created_at : Nat
  user_email : Option String
deriving DecidableEq

/-- The database state: the stored rows plus the logical clock used for
fresh ids and `auto_now_add` timestamps. -/
structure World where
  store : List Itinerary
  clock : Nat
deriving DecidableEq

/-- "`a` was created no earlier than `b`": the descending-`created_at`
ordering used by `order_by` with key `-created_at`. -/
def recNewer (a b : Itinerary) : Prop := b.created_at ≤ a.created_at

instance : DecidableRel recNewer := fun _ _ => Nat.decLe _ _

instance : IsTotal Itinerary recNewer :=
  ⟨fun a b => Or.symm (Nat.le_total a.created_at b.created_at : recNewer b a ∨ recNewer a b)⟩

instance : IsTrans Itinerary recNewer := ⟨fun _ _ _ h1 h2 => Nat.le_trans h2 h1⟩

/-- `Itinerary.objects.filter(user_email=email).order_by('-created_at')`:
the rows whose stored owner email equals `email`, newest first. -/
def listByOwner (email : String) (store : List Itinerary) : List Itinerary :=
  List.insertionSort recNewer (store.filter (fun r => r.user_email = some email))

/-- The JSON body returned by the Groq chat-completions endpoint, reduced to
the parts the view inspects: the optional `choices` array, each element
carrying its `message.content` string. -/
structure GroqBody where
  choices : Option (List String)
deriving DecidableEq

/-- One outbound `requests.post` call to the Groq endpoint, as issued by the
view: the prompt payload and the `timeout=` budget in seconds. -/
structure GroqRequest where
  prompt : String
  timeoutSeconds : Nat
deriving DecidableEq

/-- What the single outbound call does: an HTTP response with a status and
parsed JSON body, `requests.exceptions.Timeout`, another
`requests.exceptions.RequestException`, or any other exception. -/
inductive GroqOutcome where
  | http (status : Nat) (body : GroqBody)
  | timeout
  | connectionError
  | otherException
deriving DecidableEq

/-- The views' ownership guard `if request_email and not
validate_email_ownership(request_email, authenticated_email)`: triggered
exactly when the declared email is truthy and the ownership check fails. -/
def ownershipGuard (declared : Option String) (authEmail : String) : Bool :=
  match declared with
  | some re => !(re == "") && !(validate_email_ownership (some re) (some authEmail))
  | Option.none => false

/-- Response of `ItineraryView.post`: the created record serialized back
(HTTP 201), or an error status with its machine-readable code. -/
inductive PostResp where
  | ok (rec : Itinerary)
  | err (status : Nat) (code : String)
deriving DecidableEq

/-- Result of one `ItineraryView.post` invocation: the response, the
database state afterwards, how many outbound Groq calls were issued and how
many rows were written. -/
structure PostOut where
  resp : PostResp
  world : World
  groqCalls : Nat
  writes : Nat
deriving DecidableEq

/-- `ItineraryView.post`.

`fb` is `request.firebase_user` if the attribute is set, `data` the request
body, `apiKey` the `GROQ_API_KEY` environment value, `groq` the oracle for
the single outbound call, and `w` the database.  The stages mirror the
source: authentication attribute check, authenticated-email check (falsy
email rejected), input sanitization, required-fields check (Python
truthiness), optional ownership check against the declared email, API-key
check, the outbound call with `timeout=60`, response-shape check, and the
single `Itinerary.objects.create` write. -/
def itineraryPost (fb : Option FirebaseUser) (data : ReqData) (apiKey : Option String)
    (groq : GroqRequest → GroqOutcome) (w : World) : PostOut :=
  match fb with
  | Option.none => ⟨.err 401 "AUTHENTICATION_REQUIRED", w, 0, 0⟩
  | some u =>
    match u.email with
    | Option.none => ⟨.err 400 "MISSING_USER_EMAIL", w, 0, 0⟩
    | some authEmail =>
      if authEmail = "" then ⟨.err 400 "MISSING_USER_EMAIL", w, 0, 0⟩
      else
        match sanitize_user_input data with
        | .error _ => ⟨.err 400 "INVALID_INPUT", w, 0, 0⟩
        | .ok sd =>
          match sd.destination, sd.days with
          | some dest, some days =>
            if dest = "" ∨ days = 0 then ⟨.err 400 "MISSING_REQUIRED_FIELDS", w, 0, 0⟩
            else
              if ownershipGuard sd.user_email authEmail then
                ⟨.err 403 "EMAIL_OWNERSHIP_VIOLATION", w, 0, 0⟩
              else
                match apiKey with
                | Option.none => ⟨.err 500 "API_CONFIG_ERROR", w, 0, 0⟩
                | some key =>
                  if key = "" then ⟨.err 500 "API_CONFIG_ERROR", w, 0, 0⟩
                  else
                    match groq ⟨create_safe_prompt dest days, 60⟩ with
                    | .timeout => ⟨.err 504 "REQUEST_TIMEOUT", w, 1, 0⟩
                    | .connectionError => ⟨.err 503 "API_CONNECTION_ERROR", w, 1, 0⟩
                    | .otherException => ⟨.err 500 "INTERNAL_ERROR", w, 1, 0⟩
                    | .http status body =>
                      if status ≠ 200 then ⟨.err 500 "API_ERROR", w, 1, 0⟩
                      else
                        match body.choices with
                        | Option.none => ⟨.err 500 "INVALID_API_RESPONSE", w, 1, 0⟩
                        | some [] => ⟨.err 500 "INVALID_API_RESPONSE", w, 1, 0⟩
                        | some (content :: _) =>
                          let rec0 : Itinerary :=
                            ⟨w.clock, dest, days, content, w.clock, some authEmail⟩
                          ⟨.ok rec0, ⟨w.store ++ [rec0], w.clock + 1⟩, 1, 1⟩
          | _, _ => ⟨.err 400 "MISSING_REQUIRED_FIELDS", w, 0, 0⟩

/-- Response of `HistoryView.get`: the owner's serialized records (HTTP
200), or an error status with its code.  The view never writes, so no
database state is returned. -/
inductive HistResp where
  | ok (recs : List Itinerary)
  | err (status : Nat) (code : String)
deriving DecidableEq

/-- `HistoryView.get`: authentication attribute check, authenticated-email
check, optional ownership check against the declared query parameter, then
the filtered, newest-first query. -/
def historyGet (fb : Option FirebaseUser) (queryEmail : Option String) (w : World) : HistResp :=
  match fb with
  | Option.none => .err 401 "AUTHENTICATION_REQUIRED"
  | some u =>
    match u.email with
    | Option.none => .err 400 "MISSING_USER_EMAIL"
    | some authEmail =>
      if authEmail = "" then .err 400 "MISSING_USER_EMAIL"
      else
        if ownershipGuard queryEmail authEmail then
          .err 403 "EMAIL_OWNERSHIP_VIOLATION"
        else
          .ok (listByOwner authEmail w.store)

/-! ## Helper lemmas -/

lemma sanitize_user_input_email {data : ReqData} {sd : SanData}
    (h : sanitize_user_input data = .ok sd) : sd.user_email = data.user_email := by
  unfold sanitize_user_input at h
  split at h
  · simp at h
  · split at h
    · simp at h
    · injection h with h2
      rw [← h2]

lemma itineraryPost_ok_inv {u : FirebaseUser} {data : ReqData} {apiKey : Option String}
    {groq : GroqRequest → GroqOutcome} {w : World} {rec : Itinerary}
    (h : (itineraryPost (some u) data apiKey groq w).resp = .ok rec) :
    ∃ e sd key tail,
      u.email = some e ∧ e ≠ "" ∧
      sanitize_user_input data = .ok sd ∧
      sd.destination = some rec.destination ∧ sd.days = some rec.days ∧
      rec.destination ≠ "" ∧ rec.days ≠ 0 ∧
      ownershipGuard sd.user_email e = false ∧
      apiKey = some key ∧ key ≠ "" ∧
      groq ⟨create_safe_prompt rec.destination rec.days, 60⟩ = .http 200 ⟨some (rec.result :: tail)⟩ ∧
      rec = ⟨w.clock, rec.destination, rec.days, rec.result, w.clock, some e⟩ ∧
      itineraryPost (some u) data apiKey groq w = ⟨.ok rec, ⟨w.store ++ [rec], w.clock + 1⟩, 1, 1⟩ := by
  rcases he : u.email with _ | e
  · simp [itineraryPost, he] at h
  by_cases ha : e = ""
  · simp [itineraryPost, he, ha] at h
  rcases hs : sanitize_user_input data with err | sd
  · simp [itineraryPost, he, ha, hs] at h
  rcases hd : sd.destination with _ | dest
  · simp [itineraryPost, he, ha, hs, hd] at h
  rcases hy : sd.days with _ | days
  · simp [itineraryPost, he, ha, hs, hd, hy] at h
  by_cases hz : dest = "" ∨ days = 0
  · simp [itineraryPost, he, ha, hs, hd, hy, hz] at h
  by_cases hog : ownershipGuard sd.user_email e = true
  · simp [itineraryPost, he, ha, hs, hd, hy, hz, hog] at h
  rcases hk : apiKey with _ | key
  · simp [itineraryPost, he, ha, hs, hd, hy, hz, hog, hk] at h
  by_cases hke : key = ""
  · simp [itineraryPost, he, ha, hs, hd, hy, hz, hog, hk, hke] at h
  cases hg : groq ⟨create_safe_prompt dest days, 60⟩ with
  | timeout => simp [itineraryPost, he, ha, hs, hd, hy, hz, hog, hk, hke, hg] at h
  | connectionError => simp [itineraryPost, he, ha, hs, hd, hy, hz, hog, hk, hke, hg] at h
  | otherException => simp [itineraryPost, he, ha, hs, hd, hy, hz, hog, hk, hke, hg] at h
  | http st body =>
    by_cases hst : st = 200
    case neg => simp [itineraryPost, he, ha, hs, hd, hy, hz, hog, hk, hke, hg, hst] at h
    subst hst
    obtain ⟨ch⟩ := body
    rcases hch : ch with _ | l
    · subst hch; simp [itineraryPost, he, ha, hs, hd, hy, hz, hog, hk, hke, hg] at h
    rcases l with _ | ⟨content, tail⟩
    · subst hch; simp [itineraryPost, he, ha, hs, hd, hy, hz, hog, hk, hke, hg] at h
    subst hch
    have hrec : rec = ⟨w.clock, dest, days, content, w.clock, some e⟩ := by
      simp [itineraryPost, he, ha, hs, hd, hy, hz, hog, hk, hke, hg] at h
      exact h.symm
    subst hrec
    refine ⟨e, sd, key, tail, rfl, ha, rfl, hd, hy, ?_, ?_, ?_, rfl, hke, ?_, rfl, ?_⟩
    · exact fun hc => hz (Or.inl hc)
    · exact fun hc => hz (Or.inr hc)
    · simpa using hog
    · exact hg
    · simp [itineraryPost, he, ha, hs, hd, hy, hz, hog, hk, hke, hg]

/-! ## Concrete inputs used by witnesses and counterexamples -/

/-- A verified identity used in concrete runs. -/
def wUser : FirebaseUser := ⟨"uid-1", some "alice@example.com", true, Option.none, Option.none⟩

/-- A well-formed create body whose declared email matches the verified one
up to case. -/
def wData : ReqData := ⟨some (.str "Paris"), some (.int 3), some "ALICE@example.com"⟩

/-- An upstream oracle returning a well-formed completion. -/
def wGroq : GroqRequest → GroqOutcome := fun _ => .http 200 ⟨some ["mock itinerary"]⟩

/-- An upstream oracle that always times out. -/
def wGroqTimeout : GroqRequest → GroqOutcome := fun _ => .timeout

/-- The record the successful concrete create persists. -/
def wRec : Itinerary := ⟨0, "Paris", 3, "mock itinerary", 0, some "alice@example.com"⟩

/-! ## Claim theorems -/

/-- C1: every successful create performs exactly one persistence write,
appending a record whose `destination` and `days` are the sanitized inputs,
whose `result` is the upstream payload, and whose `user_email` is the
verified identity's email — never the caller-declared `user_email`, which
plays no role in the stored owner. -/
theorem create_persists_verified_owner
    (u : FirebaseUser) (data : ReqData) (apiKey : Option String)
    (groq : GroqRequest → GroqOutcome) (w : World) (rec : Itinerary)
    (h : (itineraryPost (some u) data apiKey groq w).resp = .ok rec) :
    ∃ e sd tail,
      u.email = some e ∧ rec.user_email = some e ∧
      sanitize_user_input data = .ok sd ∧
      sd.destination = some rec.destination ∧ sd.days = some rec.days ∧
      groq ⟨create_safe_prompt rec.destination rec.days, 60⟩ =
        .http 200 ⟨some (rec.result :: tail)⟩ ∧
      (itineraryPost (some u) data apiKey groq w).writes = 1 ∧
      (itineraryPost (some u) data apiKey groq w).world.store = w.store ++ [rec] := by
  obtain ⟨e, sd, key, tail, he, ha, hs, hd, hy, hne, hnz, hog, hk, hke, hg, hrec, heq⟩ :=
    itineraryPost_ok_inv h
  refine ⟨e, sd, tail, he, ?_, hs, hd, hy, hg, ?_, ?_⟩
  · rw [hrec]
  · rw [heq]
  · rw [heq]

/-- Witness for C1: the concrete successful create stores owner
`alice@example.com` (the verified email), not the declared
`ALICE@example.com`. -/
theorem create_persists_verified_owner_witness :
    (itineraryPost (some wUser) wData (some "key") wGroq ⟨[], 0⟩).resp = .ok wRec ∧
    (∃ e sd tail,
      wUser.email = some e ∧ wRec.user_email = some e ∧
      sanitize_user_input wData = .ok sd ∧
      sd.destination = some wRec.destination ∧ sd.days = some wRec.days ∧
      wGroq ⟨create_safe_prompt wRec.destination wRec.days, 60⟩ =
        .http 200 ⟨some (wRec.result :: tail)⟩ ∧
      (itineraryPost (some wUser) wData (some "key") wGroq ⟨[], 0⟩).writes = 1 ∧
      (itineraryPost (some wUser) wData (some "key") wGroq ⟨[], 0⟩).world.store =
        (⟨[], 0⟩ : World).store ++ [wRec]) :=
  ⟨by decide, create_persists_verified_owner wUser wData (some "key") wGroq ⟨[], 0⟩ wRec (by decide)⟩

/-- C2 (amended): a create request with a valid credential that passes
sanitization with both fields present, and any history request with a valid
credential, whose declared (non-empty) user_email fails the ownership check
against the verified email, terminates with EMAIL_OWNERSHIP_VIOLATION
(HTTP 403) before the upstream call and before any persistence write: the
store is unchanged, zero Groq calls and zero writes occur. -/
theorem ownership_mismatch_rejected :
    (∀ (u : FirebaseUser) (data : ReqData) (apiKey : Option String)
       (groq : GroqRequest → GroqOutcome) (w : World) (e re : String) (sd : SanData),
      u.email = some e → e ≠ "" →
      sanitize_user_input data = .ok sd →
      (∃ d, sd.destination = some d ∧ d ≠ "") →
      (∃ n, sd.days = some n ∧ n ≠ 0) →
      data.user_email = some re → re ≠ "" →
      validate_email_ownership (some re) (some e) = false →
      itineraryPost (some u) data apiKey groq w = ⟨.err 403 "EMAIL_OWNERSHIP_VIOLATION", w, 0, 0⟩) ∧
    (∀ (u : FirebaseUser) (qe : Option String) (w : World) (e q : String),
      u.email = some e → e ≠ "" →
      qe = some q → q ≠ "" →
      validate_email_ownership (some q) (some e) = false →
      historyGet (some u) qe w = .err 403 "EMAIL_OWNERSHIP_VIOLATION") := by
  constructor
  · intro u data apiKey groq w e re sd he ha hs hdd hnn hre hrne hv
    obtain ⟨d, hd, hdne⟩ := hdd
    obtain ⟨n, hn, hnne⟩ := hnn
    have hue : sd.user_email = some re := by rw [sanitize_user_input_email hs, hre]
    have hog : ownershipGuard sd.user_email e = true := by
      rw [hue]
      simp [ownershipGuard, hrne, hv]
    simp [itineraryPost, he, ha, hs, hd, hn, hdne, hnne, hog]
  · intro u qe w e q he ha hq hqne hv
    have hog : ownershipGuard qe e = true := by
      rw [hq]
      simp [ownershipGuard, hqne, hv]
    simp [historyGet, he, ha, hog]

/-- C2 counterexample: the claim as stated is false on the code.  (a) A
create whose declared user_email is present but empty is NOT rejected: the
guard skips falsy values, the pipeline reaches the upstream call and
persists a record.  (b) A create with a mismatched non-empty declared email
but an invalid destination terminates with INVALID_INPUT (HTTP 400), not
EmailOwnershipViolation, because sanitization precedes the ownership
check. -/
theorem ownership_mismatch_claim_cex :
    (itineraryPost (some wUser) ⟨some (.str "Paris"), some (.int 3), some ""⟩ (some "key") wGroq ⟨[], 0⟩).resp =
      .ok ⟨0, "Paris", 3, "mock itinerary", 0, some "alice@example.com"⟩ ∧
    (itineraryPost (some wUser) ⟨some (.str "Paris"), some (.int 3), some ""⟩ (some "key") wGroq ⟨[], 0⟩).writes = 1 ∧
    validate_email_ownership (some "") (some "alice@example.com") = false ∧
    (itineraryPost (some wUser) ⟨some (.str "!!"), some (.int 3), some "mallory@example.com"⟩ (some "key") wGroq ⟨[], 0⟩).resp =
      .err 400 "INVALID_INPUT" ∧
    validate_email_ownership (some "mallory@example.com") (some "alice@example.com") = false := by
  decide

/-- Witness for C2 (amended): a concrete mismatched declared email is
rejected with 403 by both views, leaving the store untouched. -/
theorem ownership_mismatch_rejected_witness :
    itineraryPost (some wUser) ⟨some (.str "Paris"), some (.int 3), some "mallory@example.com"⟩
        (some "key") wGroq ⟨[], 0⟩ =
      ⟨.err 403 "EMAIL_OWNERSHIP_VIOLATION", ⟨[], 0⟩, 0, 0⟩ ∧
    historyGet (some wUser) (some "mallory@example.com") ⟨[], 0⟩ =
      .err 403 "EMAIL_OWNERSHIP_VIOLATION" :=
  ⟨ownership_mismatch_rejected.1 wUser ⟨some (.str "Paris"), some (.int 3), some "mallory@example.com"⟩
      (some "key") wGroq ⟨[], 0⟩ "alice@example.com" "mallory@example.com"
      ⟨some "Paris", some 3, some "mallory@example.com"⟩ rfl (by decide) (by decide)
      ⟨"Paris", rfl, by decide⟩ ⟨3, rfl, by decide⟩ rfl (by decide) (by decide),
   ownership_mismatch_rejected.2 wUser (some "mallory@example.com") ⟨[], 0⟩
      "alice@example.com" "mallory@example.com" rfl (by decide) rfl (by decide) (by decide)⟩

/-- C8: when the single outbound generation call (issued with its 60-second
budget) times out, the database is unchanged, no write occurs, at most one
outbound call is issued (no retry), and if the call was reached the request
fails with REQUEST_TIMEOUT (HTTP 504). -/
theorem generation_timeout_no_write
    (fb : Option FirebaseUser) (data : ReqData) (apiKey : Option String)
    (groq : GroqRequest → GroqOutcome) (w : World)
    (h : ∀ p, groq ⟨p, 60⟩ = .timeout) :
    (itineraryPost fb data apiKey groq w).world = w ∧
    (itineraryPost fb data apiKey groq w).writes = 0 ∧
    (itineraryPost fb data apiKey groq w).groqCalls ≤ 1 ∧
    ((itineraryPost fb data apiKey groq w).groqCalls = 1 →
      (itineraryPost fb data apiKey groq w).resp = .err 504 "REQUEST_TIMEOUT") := by
  rcases fb with _ | u
  · simp [itineraryPost]
  rcases he : u.email with _ | e
  · simp [itineraryPost, he]
  by_cases ha : e = ""
  · simp [itineraryPost, he, ha]
  rcases hs : sanitize_user_input data with err | sd
  · simp [itineraryPost, he, ha, hs]
  rcases hd : sd.destination with _ | dest
  · simp [itineraryPost, he, ha, hs, hd]
  rcases hy : sd.days with _ | days
  · simp [itineraryPost, he, ha, hs, hd, hy]
  by_cases hz : dest = "" ∨ days = 0
  · simp [itineraryPost, he, ha, hs, hd, hy, hz]
  by_cases hog : ownershipGuard sd.user_email e = true
  · simp [itineraryPost, he, ha, hs, hd, hy, hz, hog]
  rcases hk : apiKey with _ | key
  · simp [itineraryPost, he, ha, hs, hd, hy, hz, hog, hk]
  by_cases hke : key = ""
  · simp [itineraryPost, he, ha, hs, hd, hy, hz, hog, hk, hke]
  simp [itineraryPost, he, ha, hs, hd, hy, hz, hog, hk, hke, h]

/-- Witness for C8: the concrete create against an always-timing-out
upstream returns 504 and writes nothing. -/
theorem generation_timeout_no_write_witness :
    (∀ p, wGroqTimeout ⟨p, 60⟩ = .timeout) ∧
    ((itineraryPost (some wUser) wData (some "key") wGroqTimeout ⟨[], 0⟩).world = ⟨[], 0⟩ ∧
     (itineraryPost (some wUser) wData (some "key") wGroqTimeout ⟨[], 0⟩).writes = 0 ∧
     (itineraryPost (some wUser) wData (some "key") wGroqTimeout ⟨[], 0⟩).groqCalls ≤ 1 ∧
     ((itineraryPost (some wUser) wData (some "key") wGroqTimeout ⟨[], 0⟩).groqCalls = 1 →
       (itineraryPost (some wUser) wData (some "key") wGroqTimeout ⟨[], 0⟩).resp =
         .err 504 "REQUEST_TIMEOUT")) :=
  ⟨fun _ => rfl,
   generation_timeout_no_write (some wUser) wData (some "key") wGroqTimeout ⟨[], 0⟩ (fun _ => rfl)⟩


/-- An identity-service oracle rejecting every token as invalid. -/
def wVerifyInvalid : String → VerifyOutcome := fun _ => .invalidToken

/-- An identity-service oracle reporting every token as expired. -/
def wVerifyExpired : String → VerifyOutcome := fun _ => .expiredToken

/-- C3 counterexample: in degraded (unconfigured) mode the API request to
`/api/health/` is accepted, but with NO identity attached — not with the
fixed placeholder identity the claim promises — because the exempt-path
check precedes the degraded-mode branch. -/
theorem degraded_mode_claim_cex :
    process_request false "/api/health/" Option.none wVerifyInvalid =
      ⟨.allow Option.none, false⟩ ∧
    (Option.none : Option FirebaseUser) ≠ some mockUser := by
  constructor
  · decide
  · decide

/-- C3 (amended): when the trust root is unconfigured at process start, the
identity service is never invoked and no request is rejected; every
non-exempt API request is accepted with the fixed placeholder identity
(exempt and non-API paths are accepted with no identity attached); and the
degraded result is independent of the credential header and of the identity
service, depending only on the path class. -/
theorem degraded_mode_spec :
    (∀ (path : String) (h : Option String) (v : String → VerifyOutcome),
      (process_request false path h v).verifyCalled = false ∧
      ∀ s c, (process_request false path h v).outcome ≠ .reject s c) ∧
    (∀ (path : String) (h : Option String) (v : String → VerifyOutcome),
      strStartsWith path "/api/" = true →
      EXEMPT_PATHS.any (fun p => strStartsWith path p) = false →
      (process_request false path h v).outcome = .allow (some mockUser)) ∧
    (∀ (path : String) (h h' : Option String) (v v' : String → VerifyOutcome),
      process_request false path h v = process_request false path h' v') := by
  refine ⟨?_, ?_, ?_⟩
  · intro path h v
    by_cases hex : EXEMPT_PATHS.any (fun p => strStartsWith path p)
    · simp [process_request, hex]
    by_cases hapi : strStartsWith path "/api/"
    · simp [process_request, hex, hapi]
    · simp [process_request, hex, hapi]
  · intro path h v hapi hex
    simp [process_request, hex, hapi]
  · intro path h h' v v'
    by_cases hex : EXEMPT_PATHS.any (fun p => strStartsWith path p)
    · simp [process_request, hex]
    by_cases hapi : strStartsWith path "/api/"
    · simp [process_request, hex, hapi]
    · simp [process_request, hex, hapi]

/-- Witness for C3 (amended): a concrete protected API request with a
garbage credential is accepted with the placeholder identity. -/
theorem degraded_mode_spec_witness :
    (strStartsWith "/api/itinerary/" "/api/" = true ∧
     EXEMPT_PATHS.any (fun p => strStartsWith "/api/itinerary/" p) = false) ∧
    (process_request false "/api/itinerary/" (some "garbage") wVerifyInvalid).outcome =
      .allow (some mockUser) :=
  ⟨⟨by decide, by decide⟩,
   degraded_mode_spec.2.1 "/api/itinerary/" (some "garbage") wVerifyInvalid (by decide) (by decide)⟩

/-- C4: the configured-mode error taxonomy evaluated on the code.  Missing
header gives MISSING_AUTH_HEADER, a header without the `Bearer <token>`
shape or with a non-bearer scheme gives INVALID_AUTH_FORMAT
(case-insensitively accepted otherwise), a rejected token gives
INVALID_TOKEN — and, the divergence: a token whose validity window has
elapsed ALSO gives INVALID_TOKEN, not EXPIRED_TOKEN, because
`firebase_admin` defines `ExpiredIdTokenError` as a subclass of
`InvalidIdTokenError`, so the first `except` clause catches it and the
dedicated expired branch in the source is unreachable. -/
theorem auth_error_taxonomy :
    process_request true "/api/itinerary/" Option.none wVerifyExpired =
      ⟨.reject 401 "MISSING_AUTH_HEADER", false⟩ ∧
    process_request true "/api/itinerary/" (some "Token abc") wVerifyExpired =
      ⟨.reject 401 "INVALID_AUTH_FORMAT", false⟩ ∧
    process_request true "/api/itinerary/" (some "BearerNoSpace") wVerifyExpired =
      ⟨.reject 401 "INVALID_AUTH_FORMAT", false⟩ ∧
    process_request true "/api/itinerary/" (some "Bearer tok") wVerifyInvalid =
      ⟨.reject 401 "INVALID_TOKEN", true⟩ ∧
    process_request true "/api/itinerary/" (some "bEaReR tok") wVerifyInvalid =
      ⟨.reject 401 "INVALID_TOKEN", true⟩ ∧
    process_request true "/api/itinerary/" (some "Bearer tok") wVerifyExpired =
      ⟨.reject 401 "INVALID_TOKEN", true⟩ := by
  decide

/-- C9: `listByOwner` returns exactly the records whose stored owner email
equals the given one (a permutation of the filtered store), sorted
newest-created first; it returns `[]` for an owner with no records (never
an error); and an authenticated history request returns exactly
`listByOwner` of the verified email. -/
theorem listByOwner_spec :
    (∀ (e : String) (store : List Itinerary),
      List.Perm (listByOwner e store) (store.filter (fun r => r.user_email = some e))) ∧
    (∀ (e : String) (store : List Itinerary), (listByOwner e store).Sorted recNewer) ∧
    (∀ (e : String) (store : List Itinerary),
      (∀ r ∈ store, r.user_email ≠ some e) → listByOwner e store = []) ∧
    (∀ (u : FirebaseUser) (qe : Option String) (w : World) (e : String),
      u.email = some e → e ≠ "" → ownershipGuard qe e = false →
      historyGet (some u) qe w = .ok (listByOwner e w.store)) := by
  refine ⟨fun e store => List.perm_insertionSort _ _,
          fun e store => List.sorted_insertionSort _ _, ?_, ?_⟩
  · intro e store h
    unfold listByOwner
    rw [List.filter_eq_nil_iff.mpr (by simpa using h)]
    rfl
  · intro u qe w e he ha hog
    simp [historyGet, he, ha, hog]

/-- Witness for C9: an owner with zero records gets the empty sequence, and
the concrete history request succeeds with it. -/
theorem listByOwner_spec_witness :
    (∀ r ∈ ([] : List Itinerary), r.user_email ≠ some "alice@example.com") ∧
    listByOwner "alice@example.com" [] = [] ∧
    historyGet (some wUser) Option.none ⟨[], 0⟩ = .ok (listByOwner "alice@example.com" []) :=
  ⟨by simp, listByOwner_spec.2.2.1 "alice@example.com" [] (by simp),
   listByOwner_spec.2.2.2 wUser Option.none ⟨[], 0⟩ "alice@example.com" rfl (by decide) rfl⟩


lemma insertionSort_append_newest (l : List Itinerary) (a : Itinerary)
    (h : ∀ b ∈ l, b.created_at < a.created_at) :
    List.insertionSort recNewer (l ++ [a]) = a :: List.insertionSort recNewer l := by
  induction l with
  | nil => simp [List.insertionSort, List.orderedInsert]
  | cons x xs ih =>
    have hx := h x (List.mem_cons_self x xs)
    have hxs : ∀ b ∈ xs, b.created_at < a.created_at :=
      fun b hb => h b (List.mem_cons_of_mem _ hb)
    rw [List.cons_append, List.insertionSort, ih hxs, List.orderedInsert,
      if_neg (show ¬ recNewer x a from Nat.not_le.mpr hx), List.insertionSort]

/-- C10: after a successful create by a verified identity with email `e`,
an immediately following history request by the same identity succeeds and
its first (newest) element is the just-created record, whose owner key is
the verified email used verbatim by both views.  The hypothesis is the
database well-formedness invariant that existing rows predate the current
clock. -/
theorem create_then_history_newest_first
    (u : FirebaseUser) (data : ReqData) (apiKey : Option String)
    (groq : GroqRequest → GroqOutcome) (w : World) (rec : Itinerary) (e : String)
    (hw : ∀ r ∈ w.store, r.created_at < w.clock)
    (h : (itineraryPost (some u) data apiKey groq w).resp = .ok rec)
    (he : u.email = some e) :
    rec.user_email = some e ∧
    ∃ rest, historyGet (some u) Option.none (itineraryPost (some u) data apiKey groq w).world =
      .ok (rec :: rest) := by
  obtain ⟨e', sd, key, tail, he', ha, hs, hd, hy, hne, hnz, hog, hk, hke, hg, hrec, heq⟩ :=
    itineraryPost_ok_inv h
  rw [he] at he'
  injection he' with he2
  subst he2
  have hpr : rec.user_email = some e := by rw [hrec]
  refine ⟨hpr, List.insertionSort recNewer (w.store.filter (fun r => r.user_email = some e)), ?_⟩
  rw [heq]
  have hstep : historyGet (some u) Option.none ⟨w.store ++ [rec], w.clock + 1⟩ =
      .ok (listByOwner e (w.store ++ [rec])) := by
    simp [historyGet, he, ha, ownershipGuard]
  rw [hstep]
  unfold listByOwner
  rw [List.filter_append]
  have h1 : (([rec] : List Itinerary).filter (fun r => r.user_email = some e)) = [rec] := by
    simp [hpr]
  rw [h1]
  refine congrArg (HistResp.ok) (insertionSort_append_newest _ _ ?_)
  intro b hb
  have hbs := hw b (List.mem_of_mem_filter hb)
  have hca : rec.created_at = w.clock := by rw [hrec]
  rw [hca]
  exact hbs

/-- Witness for C10: the concrete create followed by a history request
returns the new record first. -/
theorem create_then_history_newest_first_witness :
    (∀ r ∈ (⟨[], 0⟩ : World).store, r.created_at < (⟨[], 0⟩ : World).clock) ∧
    (itineraryPost (some wUser) wData (some "key") wGroq ⟨[], 0⟩).resp = .ok wRec ∧
    wUser.email = some "alice@example.com" ∧
    (wRec.user_email = some "alice@example.com" ∧
     ∃ rest, historyGet (some wUser) Option.none
         (itineraryPost (some wUser) wData (some "key") wGroq ⟨[], 0⟩).world =
       .ok (wRec :: rest)) :=
  ⟨by simp, by decide, rfl,
   create_then_history_newest_first wUser wData (some "key") wGroq ⟨[], 0⟩ wRec
     "alice@example.com" (by simp) (by decide) rfl⟩


/-- The allowed character set of the C5 claim read literally: letters,
digits, SPACE (only), hyphen, apostrophe, period, comma, parentheses.  It
differs from the code's regex class, whose whitespace class also matches
tab, newline, carriage return and the vertical-tab/form-feed characters. -/
def claimDestAllowedChar (c : Char) : Bool :=
  c.isAlpha || c.isDigit || c = ' ' || c = '-' || c = apoChar ||
    c = '.' || c = ',' || c = '(' || c = ')'

/-- C5 counterexample: the input string containing an internal TAB has a
character outside the claimed allowed set, yet sanitization SUCCEEDS (the
regex class is whitespace, not just space) and normalizes the tab to a
space. -/
theorem sanitize_destination_claim_cex :
    sanitize_destination (.str "a\tb") = .ok "a b" ∧
    '\t' ∈ "a\tb".toList ∧
    claimDestAllowedChar '\t' = false := by
  decide

/-- C5 (amended): `sanitize_destination` succeeds exactly when the raw
value is a non-empty string whose trimmed form has length in [2, 100] and
every character in the regex class (letters, digits, whitespace, hyphen,
apostrophe, period, comma, parentheses); trimming is applied before all
checks, and the returned value is the trimmed input with every whitespace
run collapsed to a single space.  Failure (`InvalidInput`) occurs exactly
in the complementary cases. -/
theorem sanitize_destination_spec (v : PyVal) (out : String) :
    sanitize_destination v = .ok out ↔
      ∃ s, v = .str s ∧ s ≠ "" ∧
        2 ≤ (pyStrip s.toList).length ∧ (pyStrip s.toList).length ≤ 100 ∧
        (pyStrip s.toList).all destAllowedChar = true ∧
        out = String.mk (collapseWs (pyStrip s.toList)) := by
  cases v with
  | int n => simp [sanitize_destination]
  | none => simp [sanitize_destination]
  | str s =>
    constructor
    · intro h
      simp only [sanitize_destination] at h
      split at h
      · exact absurd h (by simp)
      split at h
      · exact absurd h (by simp)
      split at h
      · exact absurd h (by simp)
      split at h
      case _ hs0 h100 h2 hall =>
        injection h with h2ok
        exact ⟨s, rfl, hs0, by omega, by omega, hall, h2ok.symm⟩
      case _ => exact absurd h (by simp)
    · rintro ⟨s', hv, hne, h2, h100, hall, hout⟩
      injection hv with hv2
      subst hv2
      subst hout
      simp only [sanitize_destination]
      rw [if_neg hne, if_neg (by omega), if_neg (by omega), if_pos hall]

/-- Witness for C5 (amended): a concrete padded input is trimmed and its
internal double space collapsed. -/
theorem sanitize_destination_spec_witness :
    sanitize_destination (.str " New  York ") = .ok "New York" :=
  (sanitize_destination_spec (.str " New  York ") "New York").mpr
    ⟨" New  York ", rfl, by decide, by decide, by decide, by decide, by decide⟩

/-- C6: `sanitize_days` accepts every integer in [1, 30] unchanged, rejects
every integer outside, rejects every string that `int()` cannot parse,
treats parseable numeric text exactly like the parsed integer, and rejects
non-int non-str values. -/
theorem sanitize_days_spec :
    (∀ n : Int, 1 ≤ n → n ≤ 30 → sanitize_days (.int n) = .ok n) ∧
    (∀ n : Int, n < 1 ∨ 30 < n → ∃ e, sanitize_days (.int n) = .error e) ∧
    (∀ s : String, parsePyInt s = Option.none → ∃ e, sanitize_days (.str s) = .error e) ∧
    (∀ (s : String) (n : Int), parsePyInt s = some n →
      sanitize_days (.str s) = sanitize_days (.int n)) ∧
    (∃ e, sanitize_days PyVal.none = .error e) := by
  refine ⟨?_, ?_, ?_, ?_, ⟨_, rfl⟩⟩
  · intro n h1 h30
    simp only [sanitize_days]
    rw [if_neg (by omega), if_neg (by omega)]
  · intro n h
    simp only [sanitize_days]
    rcases h with h | h
    · rw [if_pos h]
      exact ⟨_, rfl⟩
    · rw [if_neg (by omega), if_pos (by omega)]
      exact ⟨_, rfl⟩
  · intro s hp
    simp [sanitize_days, hp]
  · intro s n hp
    simp [sanitize_days, hp]

/-- Witness for C6 at concrete inputs: 5 accepted, 31 rejected, "x"
rejected, " 7 " parsed like 7. -/
theorem sanitize_days_spec_witness :
    ((1 : Int) ≤ 5 ∧ (5 : Int) ≤ 30 ∧ sanitize_days (.int 5) = .ok 5) ∧
    (((31 : Int) < 1 ∨ (30 : Int) < 31) ∧ ∃ e, sanitize_days (.int 31) = .error e) ∧
    (parsePyInt "x" = Option.none ∧ ∃ e, sanitize_days (.str "x") = .error e) ∧
    (parsePyInt " 7 " = some 7 ∧ sanitize_days (.str " 7 ") = sanitize_days (.int 7)) :=
  ⟨⟨by decide, by decide, sanitize_days_spec.1 5 (by decide) (by decide)⟩,
   ⟨Or.inr (by decide), sanitize_days_spec.2.1 31 (Or.inr (by decide))⟩,
   ⟨by decide, sanitize_days_spec.2.2.1 "x" (by decide)⟩,
   ⟨by decide, sanitize_days_spec.2.2.2.1 " 7 " 7 (by decide)⟩⟩

/-- C7 counterexample: both arguments present (empty strings) with equal
trimmed lowercased forms, yet the function returns false — the falsy check
fires before normalization, so the claimed iff fails at present-but-empty
arguments. -/
theorem validate_email_ownership_claim_cex :
    validate_email_ownership (some "") (some "") = false ∧
    pyLower (pyStripStr "") = pyLower (pyStripStr "") :=
  ⟨rfl, rfl⟩

/-- C7 (amended): ownership validation returns true iff both emails are
present AND non-empty as given, with equal whitespace-trimmed lowercased
forms; `checkOwnership("A@B.com", " a@b.com ")` is true, and an absent
argument yields false (no error). -/
theorem validate_email_ownership_spec :
    (∀ a b : Option String, validate_email_ownership a b = true ↔
      ∃ s t, a = some s ∧ b = some t ∧ s ≠ "" ∧ t ≠ "" ∧
        pyLower (pyStripStr s) = pyLower (pyStripStr t)) ∧
    validate_email_ownership (some "A@B.com") (some " a@b.com ") = true ∧
    (∀ b, validate_email_ownership Option.none b = false) ∧
    (∀ a, validate_email_ownership a Option.none = false) := by
  refine ⟨?_, by decide, ?_, ?_⟩
  · intro a b
    constructor
    · intro h
      rcases a with _ | s
      · simp [validate_email_ownership] at h
      rcases b with _ | t
      · simp [validate_email_ownership] at h
      by_cases hse : s = ""
      · simp [validate_email_ownership, hse] at h
      by_cases hte : t = ""
      · simp [validate_email_ownership, hse, hte] at h
      simp [validate_email_ownership, hse, hte] at h
      exact ⟨s, t, rfl, rfl, hse, hte, h⟩
    · rintro ⟨s, t, rfl, rfl, hs, ht, heq⟩
      simp [validate_email_ownership, hs, ht, heq]
  · intro b
    cases b <;> rfl
  · intro a
    cases a <;> rfl

/-- Witness for C7 (amended): a concrete case/whitespace-insensitive match
via the amended characterization. -/
theorem validate_email_ownership_spec_witness :
    validate_email_ownership (some "X@Y.z") (some "x@y.z  ") = true :=
  (validate_email_ownership_spec.1 (some "X@Y.z") (some "x@y.z  ")).mpr
    ⟨"X@Y.z", "x@y.z  ", rfl, rfl, by decide, by decide, by decide⟩


end TravelApp
